import Mathlib

/-!
Shallow embedding of the variable-derivation and cohort-construction pipeline
of the ENSSEX Paper B analysis scripts (`01_prepare_data.py`,
`03_regression_models.py`).

Raw survey codes are modelled as `Option ℤ` (`none` = the cell is missing,
i.e. `NaN` in the tabular representation of the source); derived float-valued
columns are `Option ℚ` (`none` = `NaN`).  All functions are translated
column-rule by column-rule from the source; pandas semantics of `==`, `isin`,
`>` on missing cells (`NaN` compares as `False`) are made explicit in the
`none` branches.
-/

namespace PaperB

/-- Source `01_prepare_data.py` lines 132-133:
`df["condom_use_freq"] = df["p73"].copy()` followed by
`df.loc[df["p73"].isin([9, 99]), "condom_use_freq"] = np.nan`.
A missing `p73` cell is copied as missing; a sentinel 9/99 is set missing. -/
def condom_use_freq (p73 : Option ℤ) : Option ℤ :=
  match p73 with
  | none => none
  | some v => if v = 9 ∨ v = 99 then none else some v

/-- Source `01_prepare_data.py` lines 136-137:
`df["always_condom"] = (df["p73"] == 1).astype(float)` followed by
`df.loc[df["p73"].isin([9, 99]), "always_condom"] = np.nan`.
In pandas, `NaN == 1` is `False` and `NaN.isin([9,99])` is `False`, so a
missing `p73` yields the defined value `0.0`. -/
def always_condom (p73 : Option ℤ) : Option ℚ :=
  match p73 with
  | none => some 0
  | some v => if v = 9 ∨ v = 99 then none else some (if v = 1 then 1 else 0)

/-- Source `01_prepare_data.py` lines 140-141:
`df["ever_condom"] = (df["p73"].isin([1, 2])).astype(float)` followed by
`df.loc[df["p73"].isin([9, 99]), "ever_condom"] = np.nan`. -/
def ever_condom (p73 : Option ℤ) : Option ℚ :=
  match p73 with
  | none => some 0
  | some v =>
    if v = 9 ∨ v = 99 then none else some (if v = 1 ∨ v = 2 then 1 else 0)

/-- Source `01_prepare_data.py` lines 164-166:
`df["partners_last_year"] = df["p71"].copy()`,
`df.loc[df["p71"] == 999, "partners_last_year"] = np.nan`,
`df.loc[df["p71"] > 100, "partners_last_year"] = np.nan`.
Both masks test the original `p71` column; `NaN == 999` and `NaN > 100` are
`False` in pandas, so a missing `p71` stays missing via the copy. -/
def partners_last_year (p71 : Option ℤ) : Option ℤ :=
  match p71 with
  | none => none
  | some v => if v = 999 then none else if 100 < v then none else some v

/-- Source `01_prepare_data.py` lines 169-170:
`df["multiple_partners"] = (df["partners_last_year"] >= 2).astype(float)`,
`df.loc[df["partners_last_year"].isna(), "multiple_partners"] = np.nan`. -/
def multiple_partners (p71 : Option ℤ) : Option ℚ :=
  match partners_last_year p71 with
  | none => none
  | some v => some (if 2 ≤ v then 1 else 0)

/-- Source `01_prepare_data.py` lines 75-87 (`assign_age_group`, fallback
CSV path).
The input is the parsed raw age `p4`: `none` models a cell that is missing
or whose `float(age)` parse raised (both `return pd.NA` in the source). -/
def assign_age_group (age : Option ℚ) : Option ℤ :=
  match age with
  | none => none
  | some a =>
    if 18 ≤ a ∧ a < 30 then some 1
    else if 30 ≤ a ∧ a < 40 then some 2
    else if 40 ≤ a ∧ a < 50 then some 3
    else if 50 ≤ a ∧ a < 60 then some 4
    else if 60 ≤ a ∧ a < 70 then some 5
    else if 70 ≤ a ∧ a < 80 then some 6
    else if 80 ≤ a then some 7
    else none

/-- The six P212 knowledge items with their designated correct codes,
`01_prepare_data.py` lines 102-109: items 1,2,3,6 are TRUE-type (correct
code 1), items 4,5 are FALSE-type (correct code 2).  Index `i : Fin 6`
stands for column `i_(i+1)_p212`. -/
def hiv_items : List (Fin 6 × ℤ) :=
  [(0, 1), (1, 1), (2, 1), (3, 2), (4, 2), (5, 1)]

/-- The designated correct code of each item, as a function of the index. -/
def correctAnswer : Fin 6 → ℤ
  | 0 => 1
  | 1 => 1
  | 2 => 1
  | 3 => 2
  | 4 => 2
  | 5 => 1

/-- Source `01_prepare_data.py` lines 112-116:
`df["hiv_knowledge_score"] = 0`, then
for each `(item, correct_answer)` in `hiv_items`, if the column is present,
add `(df[item] == correct_answer).astype(int)`.  `hasItem i` models
`item in df.columns`; `item i = none` models a missing cell, which compares
unequal to every code in pandas and so adds 0. -/
def hiv_knowledge_score (hasItem : Fin 6 → Bool) (item : Fin 6 → Option ℤ) : ℕ :=
  hiv_items.foldl
    (fun acc p =>
      if hasItem p.1 then acc + (if item p.1 = some p.2 then 1 else 0) else acc)
    0

/-- Source `01_prepare_data.py` lines 190-197.  `hasIts` models
`"its_alguna_vez" in df.columns`; `sti_vals` lists the cells of the row in the
columns whose name starts with `p202_` (in column order).  When the summary
column is absent the code initializes the column to 0 and ORs in each
`p202_*` column; with no such column the initial 0 is left in place. -/
def any_sti (hasIts : Bool) (its : Option ℤ) (sti_vals : List (Option ℤ)) :
    Option ℚ :=
  if hasIts then some (if its = some 1 then 1 else 0)
  else some (sti_vals.foldl
    (fun acc v => if acc = 1 ∨ v = some 1 then 1 else 0) 0)

/-- One row of the wide derived table at the point where Step 8 of
`01_prepare_data.py` (lines 288-301) applies the cohort filter.  Only the
columns consulted by the filter are carried, plus the respondent key. -/
structure AnalyticRow where
  folio : ℕ
  condom_use_freq : Option ℤ
  always_condom : Option ℚ
  ever_condom : Option ℚ
  partners_last_year : Option ℤ
  edad_grupo : Option ℤ
  deriving DecidableEq

/-- Row mask `df["partners_last_year"] > 0` (line 292); `NaN > 0` is `False`. -/
def filter_partners (r : AnalyticRow) : Bool :=
  match r.partners_last_year with
  | none => false
  | some v => decide (0 < v)

/-- Row mask `df_analysis["condom_use_freq"].notna()` (line 296). -/
def filter_condom (r : AnalyticRow) : Bool :=
  r.condom_use_freq.isSome

/-- Row mask `df_analysis["edad_grupo"].notna()` (line 300). -/
def filter_age (r : AnalyticRow) : Bool :=
  r.edad_grupo.isSome

/-- Source `01_prepare_data.py` lines 292-300: the three inclusion predicates
applied in the fixed source order (partners, then condom data, then age). -/
def df_analysis (df : List AnalyticRow) : List AnalyticRow :=
  ((df.filter filter_partners).filter filter_condom).filter filter_age

/-- One row of the analytic dataset as loaded by `03_regression_models.py`
(the spreadsheet written by Step 9 of `01_prepare_data.py`); only the columns
the regression battery selects are carried.  Each is `Option`-valued because
`dropna` treats every column cell independently. -/
structure ModelRow where
  always_condom : Option ℚ
  edad_grupo : Option ℤ
  hiv_knowledge_score : Option ℚ
  partners_last_year : Option ℚ
  any_sti : Option ℚ
  tested_hiv_12mo : Option ℚ
  knows_prep : Option ℚ
  edad_grupo_lbl : Option String
  deriving DecidableEq

/-- Source `03_regression_models.py` line 42:
`df[["always_condom", "edad_grupo", "hiv_knowledge_score"]].dropna()`. -/
def model1_data (df : List ModelRow) : List ModelRow :=
  df.filter (fun r =>
    r.always_condom.isSome && r.edad_grupo.isSome &&
      r.hiv_knowledge_score.isSome)

/-- Source `03_regression_models.py` lines 74-75: the Model 1 columns plus
`partners_last_year`, then `dropna()`. -/
def model2_data (df : List ModelRow) : List ModelRow :=
  df.filter (fun r =>
    r.always_condom.isSome && r.edad_grupo.isSome &&
      r.hiv_knowledge_score.isSome && r.partners_last_year.isSome)

/-- Source `03_regression_models.py` lines 105-106: the Model 2 columns plus
`any_sti` and `tested_hiv_12mo`, then `dropna()`. -/
def model3_data (df : List ModelRow) : List ModelRow :=
  df.filter (fun r =>
    r.always_condom.isSome && r.edad_grupo.isSome &&
      r.hiv_knowledge_score.isSome && r.partners_last_year.isSome &&
      r.any_sti.isSome && r.tested_hiv_12mo.isSome)

/-- Source `03_regression_models.py` lines 137-139: the Model 3 columns plus
`knows_prep`, then `dropna()`. -/
def model4_data (df : List ModelRow) : List ModelRow :=
  df.filter (fun r =>
    r.always_condom.isSome && r.edad_grupo.isSome &&
      r.hiv_knowledge_score.isSome && r.partners_last_year.isSome &&
      r.any_sti.isSome && r.tested_hiv_12mo.isSome && r.knows_prep.isSome)

/-- Source `03_regression_models.py` lines 170-171: the interaction-model
data, `df[["always_condom", "edad_grupo", "hiv_knowledge_score",
"partners_last_year"]].dropna()` (the interaction term adds no column). -/
def model5_data (df : List ModelRow) : List ModelRow :=
  df.filter (fun r =>
    r.always_condom.isSome && r.edad_grupo.isSome &&
      r.hiv_knowledge_score.isSome && r.partners_last_year.isSome)

/-- Source `03_regression_models.py` lines 212-213:
`age_groups = df["edad_grupo_lbl"].unique()` followed by
`sorted([a for a in age_groups if pd.notna(a)])`. -/
def age_groups (df : List ModelRow) : List String :=
  (((df.map (fun r => r.edad_grupo_lbl)).filterMap id).dedup).mergeSort
    (fun a b => decide (a ≤ b))

/-- Source `03_regression_models.py` lines 216-218: rows of one age stratum,
`df[df["edad_grupo_lbl"] == age][["always_condom", "hiv_knowledge_score",
"partners_last_year"]].dropna()`. -/
def age_data (df : List ModelRow) (a : String) : List ModelRow :=
  (df.filter (fun r => decide (r.edad_grupo_lbl = some a))).filter
    (fun r =>
      r.always_condom.isSome && r.hiv_knowledge_score.isSome &&
        r.partners_last_year.isSome)

/-- One row of the `age_stratified_results` table: the age-group label and
its complete-case count.  The fitted odds ratios, CIs and p-values in the
result dict of the source come from the numeric logit optimizer and are
abstracted away;
this embedding keeps exactly the data that decides whether the row exists. -/
structure StratResult where
  label : String
  N : ℕ
  deriving DecidableEq

/-- Source `03_regression_models.py` lines 215-247: for each age label, fit
and
append a result row only when the stratum has at least 30 complete cases
(`if len(age_data) >= 30`); otherwise the loop body is skipped. -/
def age_stratified_results (df : List ModelRow) : List StratResult :=
  (age_groups df).filterMap (fun a =>
    if 30 ≤ (age_data df a).length
    then some ⟨a, (age_data df a).length⟩ else none)

/-- Any row of the final analytic sample passes all three masks. -/
lemma mem_df_analysis {df : List AnalyticRow} {r : AnalyticRow}
    (h : r ∈ df_analysis df) :
    filter_partners r = true ∧ filter_condom r = true ∧ filter_age r = true := by
  unfold df_analysis at h
  have h3 := (List.mem_filter.mp h).2
  have h2 := (List.mem_filter.mp (List.mem_of_mem_filter h)).2
  have h1 := (List.mem_filter.mp
    (List.mem_of_mem_filter (List.mem_of_mem_filter h))).2
  exact ⟨h1, h2, h3⟩

end PaperB

namespace PaperB

/-- C1: for every respondent, `always_condom` is undefined iff the raw `p73`
code is a sentinel (9 or 99); otherwise it equals 1.0 exactly when the raw
code is 1, and 0.0 for any other raw value. -/
theorem always_condom_sentinel_iff (p73 : Option ℤ) :
    (always_condom p73 = none ↔ p73 = some 9 ∨ p73 = some 99) ∧
    (∀ v : ℤ, p73 = some v → v ≠ 9 → v ≠ 99 →
      always_condom p73 = some (if v = 1 then 1 else 0)) := by
  constructor
  · constructor
    · intro h
      match p73 with
      | none => simp [always_condom] at h
      | some v =>
        simp only [always_condom] at h
        by_cases hs : v = 9 ∨ v = 99
        · rcases hs with h9 | h99
          · exact Or.inl (by rw [h9])
          · exact Or.inr (by rw [h99])
        · simp [hs] at h
    · rintro (h | h) <;> subst h <;> simp [always_condom]
  · rintro v rfl h9 h99
    have hs : ¬(v = 9 ∨ v = 99) := by tauto
    simp [always_condom, hs]

/-- Witness for C1 at the concrete raw codes 9 (sentinel), 1 (always) and
3 (never). -/
theorem always_condom_sentinel_iff_witness :
    always_condom (some 9) = none ∧ always_condom (some 1) = some 1 ∧
      always_condom (some 3) = some 0 := by
  refine ⟨?_, ?_, ?_⟩
  · exact (always_condom_sentinel_iff (some 9)).1.2 (Or.inl rfl)
  · have h := (always_condom_sentinel_iff (some 1)).2 1 rfl
      (by decide) (by decide)
    simpa using h
  · have h := (always_condom_sentinel_iff (some 3)).2 3 rfl
      (by decide) (by decide)
    simpa using h

/-- C9: a respondent whose raw `p73` cell is absent (missing, not the numeric
sentinel 9/99) gets `always_condom` and `ever_condom` both defined and equal
to 0.0: pandas scores true missingness as "not always / never" rather than
propagating it as undefined. -/
theorem missing_p73_scored_zero :
    always_condom none = some 0 ∧ ever_condom none = some 0 :=
  ⟨rfl, rfl⟩

/-- C7: a raw partner count of 999 (or any raw value above 100) derives to an
undefined `partners_last_year`, and any row whose `partners_last_year` is
undefined is excluded from the analytic sample by the first cohort predicate
(`partners_last_year > 0`, `NaN` excluded). -/
theorem partners_sentinel_excluded (v : ℤ) (h : v = 999 ∨ 100 < v) :
    partners_last_year (some v) = none ∧
    ∀ (df : List AnalyticRow) (r : AnalyticRow),
      r.partners_last_year = none → r ∉ df_analysis df := by
  constructor
  · by_cases hv : v = 999
    · simp [partners_last_year, hv]
    · rcases h with h999 | h100
      · exact absurd h999 hv
      · simp [partners_last_year, hv, h100]
  · intro df r hr hmem
    have h1 := (mem_df_analysis hmem).1
    simp [filter_partners, hr] at h1

/-- Witness for C7 at the concrete sentinel 999 and a concrete row. -/
theorem partners_sentinel_excluded_witness :
    partners_last_year (some 999) = none ∧
    (⟨0, some 1, some 0, some 0, none, some 1⟩ : AnalyticRow) ∉
      df_analysis [⟨0, some 1, some 0, some 0, none, some 1⟩] :=
  ⟨(partners_sentinel_excluded 999 (Or.inl rfl)).1,
   (partners_sentinel_excluded 999 (Or.inl rfl)).2
     [⟨0, some 1, some 0, some 0, none, some 1⟩] _ rfl⟩

/-- Two successive row filters commute. -/
lemma filter_swap {α : Type} (p q : α → Bool) (l : List α) :
    (l.filter p).filter q = (l.filter q).filter p := by
  simp only [List.filter_filter]
  exact List.filter_congr (fun a _ => by cases p a <;> cases q a <;> rfl)

/-- C5: applying the three cohort-inclusion predicates in any of the six
orders yields the same final analytic row set as the fixed source order
(partners, then condom data, then age). -/
theorem cohort_filter_order_invariant (df : List AnalyticRow) :
    ((df.filter filter_partners).filter filter_age).filter filter_condom
        = df_analysis df ∧
    ((df.filter filter_condom).filter filter_partners).filter filter_age
        = df_analysis df ∧
    ((df.filter filter_condom).filter filter_age).filter filter_partners
        = df_analysis df ∧
    ((df.filter filter_age).filter filter_partners).filter filter_condom
        = df_analysis df ∧
    ((df.filter filter_age).filter filter_condom).filter filter_partners
        = df_analysis df := by
  unfold df_analysis
  refine ⟨?_, ?_, ?_, ?_, ?_⟩ <;>
    simp only [List.filter_filter] <;>
    exact List.filter_congr (fun r _ => by
      cases filter_partners r <;> cases filter_condom r <;>
        cases filter_age r <;> rfl)

/-- C10: on the fallback raw-CSV path, a parsed age below 18 (or an
unparseable/missing one) yields an undefined `edad_grupo`, and any row with
undefined `edad_grupo` is excluded from the analytic sample by the age
predicate; every parseable age of at least 18 maps to exactly one group code
in 1-7. -/
theorem age_group_fallback (age : ℚ) :
    (age < 18 → assign_age_group (some age) = none) ∧
    assign_age_group none = none ∧
    (18 ≤ age →
      ∃! c : ℤ, assign_age_group (some age) = some c ∧ 1 ≤ c ∧ c ≤ 7) ∧
    (∀ (df : List AnalyticRow) (r : AnalyticRow),
      r.edad_grupo = none → r ∉ df_analysis df) := by
  refine ⟨?_, rfl, ?_, ?_⟩
  · intro h
    simp only [assign_age_group]
    rw [if_neg (by rintro ⟨h18, _⟩; linarith),
        if_neg (by rintro ⟨h30, _⟩; linarith),
        if_neg (by rintro ⟨h40, _⟩; linarith),
        if_neg (by rintro ⟨h50, _⟩; linarith),
        if_neg (by rintro ⟨h60, _⟩; linarith),
        if_neg (by rintro ⟨h70, _⟩; linarith),
        if_neg (by intro h80; linarith)]
  · intro h18
    have hex : ∃ c : ℤ, assign_age_group (some age) = some c ∧ 1 ≤ c ∧ c ≤ 7 := by
      simp only [assign_age_group]
      rcases lt_or_le age 30 with hB | hA
      · exact ⟨1, by rw [if_pos ⟨h18, hB⟩], by decide, by decide⟩
      rcases lt_or_le age 40 with hB | hA2
      · exact ⟨2, by rw [if_neg (by rintro ⟨_, hlt⟩; linarith),
          if_pos ⟨hA, hB⟩], by decide, by decide⟩
      rcases lt_or_le age 50 with hB | hA3
      · exact ⟨3, by rw [if_neg (by rintro ⟨_, hlt⟩; linarith),
          if_neg (by rintro ⟨_, hlt⟩; linarith),
          if_pos ⟨hA2, hB⟩], by decide, by decide⟩
      rcases lt_or_le age 60 with hB | hA4
      · exact ⟨4, by rw [if_neg (by rintro ⟨_, hlt⟩; linarith),
          if_neg (by rintro ⟨_, hlt⟩; linarith),
          if_neg (by rintro ⟨_, hlt⟩; linarith),
          if_pos ⟨hA3, hB⟩], by decide, by decide⟩
      rcases lt_or_le age 70 with hB | hA5
      · exact ⟨5, by rw [if_neg (by rintro ⟨_, hlt⟩; linarith),
          if_neg (by rintro ⟨_, hlt⟩; linarith),
          if_neg (by rintro ⟨_, hlt⟩; linarith),
          if_neg (by rintro ⟨_, hlt⟩; linarith),
          if_pos ⟨hA4, hB⟩], by decide, by decide⟩
      rcases lt_or_le age 80 with hB | hA6
      · exact ⟨6, by rw [if_neg (by rintro ⟨_, hlt⟩; linarith),
          if_neg (by rintro ⟨_, hlt⟩; linarith),
          if_neg (by rintro ⟨_, hlt⟩; linarith),
          if_neg (by rintro ⟨_, hlt⟩; linarith),
          if_neg (by rintro ⟨_, hlt⟩; linarith),
          if_pos ⟨hA5, hB⟩], by decide, by decide⟩
      · exact ⟨7, by rw [if_neg (by rintro ⟨_, hlt⟩; linarith),
          if_neg (by rintro ⟨_, hlt⟩; linarith),
          if_neg (by rintro ⟨_, hlt⟩; linarith),
          if_neg (by rintro ⟨_, hlt⟩; linarith),
          if_neg (by rintro ⟨_, hlt⟩; linarith),
          if_neg (by rintro ⟨_, hlt⟩; linarith),
          if_pos hA6], by decide, by decide⟩
    obtain ⟨c, hc, h1, h7⟩ := hex
    exact ⟨c, ⟨hc, h1, h7⟩, fun y hy => by
      have := hy.1.symm.trans hc
      exact (Option.some.injEq _ _ ▸ this)⟩
  · intro df r hr hmem
    have h3 := (mem_df_analysis hmem).2.2
    simp [filter_age, hr] at h3

/-- The score loop adds, over any item list, exactly the indicator of
"column present and code equals the designated correct code". -/
lemma score_foldl_eq (hasItem : Fin 6 → Bool) (item : Fin 6 → Option ℤ) :
    ∀ (l : List (Fin 6 × ℤ)) (acc : ℕ),
      l.foldl
        (fun acc p =>
          if hasItem p.1 then acc + (if item p.1 = some p.2 then 1 else 0)
          else acc) acc
      = acc + (l.map
          (fun p => if hasItem p.1 = true ∧ item p.1 = some p.2 then 1 else 0)).sum := by
  intro l
  induction l with
  | nil => intro acc; simp
  | cons hd tl ih =>
    intro acc
    simp only [List.foldl_cons, List.map_cons, List.sum_cons, ih]
    cases h : hasItem hd.1 <;> simp [h, add_assoc]

/-- C2: `hiv_knowledge_score` is total (the column dtype is integer, never
`NaN`) and lies in [0,6]; each of the six fixed items contributes exactly 1
point when its column is present and its code equals the designated correct
code of that item, with missing or sentinel cells contributing 0 and absent
columns skipped. -/
theorem hiv_knowledge_score_spec (hasItem : Fin 6 → Bool)
    (item : Fin 6 → Option ℤ) :
    hiv_knowledge_score hasItem item ≤ 6 ∧
    hiv_knowledge_score hasItem item
      = ∑ i : Fin 6,
          if hasItem i = true ∧ item i = some (correctAnswer i) then 1 else 0 := by
  have hsum : hiv_knowledge_score hasItem item
      = ∑ i : Fin 6,
          if hasItem i = true ∧ item i = some (correctAnswer i) then 1 else 0 := by
    have h0 : correctAnswer 0 = 1 := rfl
    have h1 : correctAnswer 1 = 1 := rfl
    have h2 : correctAnswer 2 = 1 := rfl
    have h3 : correctAnswer 3 = 2 := rfl
    have h4 : correctAnswer 4 = 2 := rfl
    have h5 : correctAnswer 5 = 1 := rfl
    rw [hiv_knowledge_score, score_foldl_eq, Fin.sum_univ_six]
    simp only [hiv_items, List.map_cons, List.map_nil, List.sum_cons,
      List.sum_nil, h0, h1, h2, h3, h4, h5, zero_add, add_zero, add_assoc]
  refine ⟨?_, hsum⟩
  rw [hsum]
  calc (∑ i : Fin 6,
          if hasItem i = true ∧ item i = some (correctAnswer i) then 1 else 0)
      ≤ ∑ _i : Fin 6, 1 :=
        Finset.sum_le_sum (fun i _ => by split <;> simp)
    _ = 6 := by simp

/-- C3 counterexample: with no summary `its_alguna_vez` column and no `p202_*`
columns at all, the derived `any_sti` is the defined value 0.0 for every row,
not undefined as the claim states. -/
theorem any_sti_no_columns_defined :
    any_sti false none [] = some 0 ∧ any_sti false none [] ≠ none := by
  constructor
  · rfl
  · simp [any_sti]

/-- C3 as amended: `any_sti` comes from the summary "ever had an STI" field
when that column exists, else from OR-ing the `p202_*` diagnosis columns; it
is always defined, and with no diagnosis columns at all it is 0.0 (defined
false) for the whole column, not undefined. -/
theorem any_sti_characterization (hasIts : Bool) (its : Option ℤ)
    (sti_vals : List (Option ℤ)) :
    (hasIts = true →
      any_sti hasIts its sti_vals = some (if its = some 1 then 1 else 0)) ∧
    (hasIts = false →
      any_sti hasIts its sti_vals
        = some (if ∃ v ∈ sti_vals, v = some 1 then 1 else 0)) := by
  have hfold : ∀ (vals : List (Option ℤ)) (acc : ℚ), acc = 0 ∨ acc = 1 →
      vals.foldl (fun acc v => if acc = 1 ∨ v = some 1 then 1 else 0) acc
        = if acc = 1 ∨ ∃ v ∈ vals, v = some 1 then 1 else 0 := by
    intro vals
    induction vals with
    | nil =>
      rintro acc (rfl | rfl) <;> norm_num
    | cons hd tl ih =>
      intro acc hacc
      simp only [List.foldl_cons]
      by_cases hstep : acc = 1 ∨ hd = some 1
      · rw [if_pos hstep, ih 1 (Or.inr rfl), if_pos (Or.inl rfl),
          if_pos]
        rcases hstep with h | h
        · exact Or.inl h
        · exact Or.inr ⟨hd, by simp, h⟩
      · rw [if_neg hstep, ih 0 (Or.inl rfl)]
        push_neg at hstep
        by_cases htl : ∃ v ∈ tl, v = some (1 : ℤ)
        · rw [if_pos (Or.inr htl), if_pos]
          obtain ⟨v, hv, hv1⟩ := htl
          exact Or.inr ⟨v, by simp [hv], hv1⟩
        · rw [if_neg, if_neg]
          · rintro (h | ⟨v, hv, hv1⟩)
            · exact hstep.1 h
            · rcases List.mem_cons.mp hv with rfl | hvtl
              · exact hstep.2 hv1
              · exact htl ⟨v, hvtl, hv1⟩
          · rintro (h | htl')
            · norm_num at h
            · exact htl htl'
  constructor
  · intro h
    simp [any_sti, h]
  · intro h
    have hiff : ((0 : ℚ) = 1 ∨ ∃ v ∈ sti_vals, v = some (1 : ℤ))
        ↔ ∃ v ∈ sti_vals, v = some (1 : ℤ) := by
      constructor
      · rintro (h0 | hex)
        · norm_num at h0
        · exact hex
      · exact Or.inr
    simp only [any_sti, h, Bool.false_eq_true, if_false]
    rw [hfold sti_vals 0 (Or.inl rfl)]
    simp only [hiff]

/-- Witness for the amended C3 theorem at a present summary column and at a
two-column fallback containing a positive diagnosis. -/
theorem any_sti_characterization_witness :
    any_sti true (some 1) [] = some 1 ∧
    any_sti false none [some 0, some 1] = some 1 := by
  constructor
  · have h := (any_sti_characterization true (some 1) []).1 rfl
    simpa using h
  · have h := (any_sti_characterization false none [some 0, some 1]).2 rfl
    have hex : ∃ v ∈ [some (0 : ℤ), some 1], v = some (1 : ℤ) :=
      ⟨some 1, by simp, rfl⟩
    rw [h, if_pos hex]

/-- Witness for C10: age 10 (below 18) is unassigned, age 34 gets exactly one
code in 1-7, and a concrete row with undefined `edad_grupo` is excluded. -/
theorem age_group_fallback_witness :
    assign_age_group (some 10) = none ∧
    (∃! c : ℤ, assign_age_group (some 34) = some c ∧ 1 ≤ c ∧ c ≤ 7) ∧
    (⟨1, some 1, some 0, some 0, some 1, none⟩ : AnalyticRow) ∉
      df_analysis [⟨1, some 1, some 0, some 0, some 1, none⟩] :=
  ⟨(age_group_fallback 10).1 (by norm_num),
   (age_group_fallback 34).2.2.1 (by norm_num),
   (age_group_fallback 34).2.2.2
     [⟨1, some 1, some 0, some 0, some 1, none⟩] _ rfl⟩

/-- C4: Models 2 and 5 select the identical column set
(always_condom, edad_grupo, hiv_knowledge_score, partners_last_year) before
`dropna`, so they are fit on the identical complete-case row set and the
likelihood-ratio statistic -2*(logLik(Model 2) - logLik(Model 5)) compares
models nested on the same rows. -/
theorem model2_model5_same_rows (df : List ModelRow) :
    model2_data df = model5_data df := rfl

/-- C6: listwise deletion over a superset of columns can only shrink or
preserve the row set, so the complete-case sample sizes of the nested models
are monotonically non-increasing: N1 >= N2 >= N3 >= N4. -/
theorem model_sample_sizes_monotone (df : List ModelRow) :
    (model2_data df).length ≤ (model1_data df).length ∧
    (model3_data df).length ≤ (model2_data df).length ∧
    (model4_data df).length ≤ (model3_data df).length := by
  refine ⟨?_, ?_, ?_⟩ <;>
  · apply List.Sublist.length_le
    apply List.monotone_filter_right
    intro r h
    simp only [Bool.and_eq_true] at h ⊢
    tauto

/-- C8: an age-stratified result row for label `a` is produced iff the
complete-case count of that stratum is at least 30; strata below the threshold
(including labels absent from the data) are skipped silently. -/
theorem age_stratified_threshold (df : List ModelRow) (a : String) :
    (∃ e ∈ age_stratified_results df, e.label = a)
      ↔ 30 ≤ (age_data df a).length := by
  constructor
  · rintro ⟨e, he, rfl⟩
    obtain ⟨b, hb, hfb⟩ := List.mem_filterMap.mp he
    by_cases h30 : 30 ≤ (age_data df b).length
    · rw [if_pos h30] at hfb
      have heq := Option.some.inj hfb
      subst heq
      simpa using h30
    · rw [if_neg h30] at hfb
      cases hfb
  · intro h30
    have hpos : 0 < (age_data df a).length := lt_of_lt_of_le (by norm_num) h30
    obtain ⟨r, hr⟩ := List.exists_mem_of_length_pos hpos
    have hr1 : r ∈ df.filter (fun r => decide (r.edad_grupo_lbl = some a)) :=
      List.mem_of_mem_filter hr
    have hrdf : r ∈ df := List.mem_of_mem_filter hr1
    have hlbl : r.edad_grupo_lbl = some a := by
      have h := (List.mem_filter.mp hr1).2
      simpa using h
    have hmem : a ∈ age_groups df := by
      unfold age_groups
      rw [List.mem_mergeSort, List.mem_dedup, List.mem_filterMap]
      exact ⟨some a, List.mem_map.mpr ⟨r, hrdf, hlbl⟩, rfl⟩
    refine ⟨⟨a, (age_data df a).length⟩, ?_, rfl⟩
    exact List.mem_filterMap.mpr ⟨a, hmem, by rw [if_pos h30]⟩

end PaperB
